import Mathlib

/-!
Formal model of the nvim-oxi toplevel bridge (`src/nvim-oxi/src/toplevel/toplevel.rs`).

The source file defines two operations over the embedded Lua interpreter:
`print` (push the global `print` function and a string, call it) and
`schedule` (register a native closure in the Lua registry, hand the
reference to `vim.schedule`, then pop the receiver and unref the handle).

The interpreter itself (the Lua C API named by the `ffi::lua_*` calls) is an
external collaborator; its stack protocol is embedded here as explicit state
passing over a `LuaState` record.  The `lua` helper module of the repository
(`with_state`, `once_to_luaref`) is not under `src/`, so those pieces are
modelled from the spec, as marked in the doc comments below.  `with_state`
merely hands the body exclusive access to the interpreter state handle, which
the embedding renders as threading the state through each operation.

An unprotected `lua_call` does not return on an interpreter-level error: the
error propagates (longjmp) past the native frame.  The embedding renders this
as the `Outcome.luaRaise` result, which the straight-line translations of
`print` and `schedule` propagate without running the remaining statements,
exactly as the source's sequential FFI calls would be skipped by the longjmp.
-/

/-- A Lua value as it can appear on the interpreter stack in this bridge:
`nil`, an interned string, a registry reference, the global `print`
function, the `vim` namespace table, or its `schedule` field. -/
inductive LuaValue where
  | nil
  | str (s : String)
  | luaref (r : Nat)
  | printFn
  | vimTable
  | scheduleFn
  deriving DecidableEq

/-- One observable interpreter interaction performed by the bridge.  Push
events record the value pushed; the call event records the callee, the
arguments it consumed (in positional order) and the number of expected
results; the pop event records the values removed. -/
inductive Event where
  | getglobal (name : String) (pushed : LuaValue)
  | getfield (field : String) (pushed : LuaValue)
  | pushstring (s : String)
  | rawgeti (r : Nat) (pushed : LuaValue)
  | call (callee : LuaValue) (args : List LuaValue) (nresults : Nat)
  | pop (vals : List LuaValue)
  | registerClosure (r : Nat) (fid : Nat)
  | unref (r : Nat)
  deriving DecidableEq

/-- Modelled from the spec: the host environment consumed by the bridge —
whether the global `print` function and the `vim.schedule` entry point
exist, and whether invoking either raises an interpreter-level error. -/
structure Host where
  hasPrint : Bool
  printRaises : Bool
  hasVim : Bool
  hasSchedule : Bool
  scheduleRaises : Bool
  deriving DecidableEq

/-- The interpreter state threaded through every bridge operation: the value
stack (head is the top), the persistent reference registry (handle to native
closure id), the next fresh registry handle, the messages emitted by the
host `print`, the references handed to `vim.schedule` but not yet invoked,
the closures the host has invoked, and the log of interactions. -/
structure LuaState where
  stack : List LuaValue
  registry : List (Nat × Nat)
  nextRef : Nat
  messages : List String
  scheduled : List Nat
  invoked : List Nat
  events : List Event
  deriving DecidableEq

/-- The error value `print` can return to the native caller:
`std::ffi::CString::new` fails on a string containing a null byte. -/
inductive NativeErr where
  | invalidArgument
  deriving DecidableEq

/-- Result of a bridge operation.  `ok` returns a value and the new state to
the native caller; `nativeErr` returns a Rust error value to the native
caller; `luaRaise` is an interpreter-level error propagating past the native
frame (unprotected `lua_call` longjmps), so control never returns to the
statements following the raising call. -/
inductive Outcome (α : Type) where
  | ok (a : α) (s : LuaState)
  | nativeErr (e : NativeErr) (s : LuaState)
  | luaRaise (s : LuaState)
  deriving DecidableEq

/-- The state carried by an outcome, whichever constructor produced it. -/
def Outcome.state {α : Type} : Outcome α → LuaState
  | Outcome.ok _ s => s
  | Outcome.nativeErr _ s => s
  | Outcome.luaRaise s => s

/-- Whether the outcome is an interpreter-level raise. -/
def Outcome.isLuaRaise {α : Type} : Outcome α → Bool
  | Outcome.luaRaise _ => true
  | _ => false

/-- Whether the outcome is a native error value returned to the caller. -/
def Outcome.isNativeErr {α : Type} : Outcome α → Bool
  | Outcome.nativeErr _ _ => true
  | _ => false

/-- Push a value onto the interpreter stack. -/
def push (v : LuaValue) (s : LuaState) : LuaState :=
  { s with stack := v :: s.stack }

/-- Append an interaction to the event log. -/
def logEvent (e : Event) (s : LuaState) : LuaState :=
  { s with events := s.events ++ [e] }

/-- The value a global name resolves to in the host environment: `print` and
`vim` according to the `Host`, anything else `nil`. -/
def globalValue (h : Host) (name : String) : LuaValue :=
  if name = "print" then (if h.hasPrint then LuaValue.printFn else LuaValue.nil)
  else if name = "vim" then (if h.hasVim then LuaValue.vimTable else LuaValue.nil)
  else LuaValue.nil

/-- Modelled from the spec: the ABI primitive get-global-by-name
(`ffi::lua_getglobal`): pushes the named global, or `nil` when absent. -/
def lua_getglobal (h : Host) (name : String) (s : LuaState) : LuaState :=
  logEvent (Event.getglobal name (globalValue h name)) (push (globalValue h name) s)

/-- Modelled from the spec: the ABI primitive push-string
(`ffi::lua_pushstring`): pushes the (null-free) text as a Lua string. -/
def lua_pushstring (t : String) (s : LuaState) : LuaState :=
  logEvent (Event.pushstring t) (push (LuaValue.str t) s)

/-- Modelled from the spec: the ABI primitive get-field-of-top-of-stack
(`ffi::lua_getfield` at index `-1`).  Indexing the `vim` table pushes the
field's value (`nil` when the field is absent); indexing a non-table value
raises an interpreter-level error, which propagates past the native frame. -/
def lua_getfield_top (h : Host) (field : String) (s : LuaState) : Outcome Unit :=
  match s.stack.head? with
  | some LuaValue.vimTable =>
    let v := if field = "schedule" then
               (if h.hasSchedule then LuaValue.scheduleFn else LuaValue.nil)
             else LuaValue.nil
    Outcome.ok () (logEvent (Event.getfield field v) (push v s))
  | _ => Outcome.luaRaise s

/-- Modelled from the spec: `lua::once_to_luaref` registers a one-shot
native closure (identified by `fid`) in the interpreter's persistent
reference registry and returns the fresh `RegistryHandle`.  Registration
must not invoke the closure: it only extends the registry. -/
def once_to_luaref (fid : Nat) (s : LuaState) : Nat × LuaState :=
  (s.nextRef,
    logEvent (Event.registerClosure s.nextRef fid)
      { s with registry := (s.nextRef, fid) :: s.registry, nextRef := s.nextRef + 1 })

/-- Modelled from the spec: the ABI primitive rawget-by-index
(`ffi::lua_rawgeti` on `LUA_REGISTRYINDEX`): pushes the registry entry for
the handle, or `nil` when the handle is not in the registry. -/
def lua_rawgeti (r : Nat) (s : LuaState) : LuaState :=
  let v := if (s.registry.lookup r).isSome then LuaValue.luaref r else LuaValue.nil
  logEvent (Event.rawgeti r v) (push v s)

/-- The string payload of a Lua value, used by the host `print` to emit its
arguments to the message area. -/
def strOf : LuaValue → Option String
  | LuaValue.str t => some t
  | _ => none

/-- Modelled from the spec: the ABI primitive
call-with-arity-and-expected-results (`ffi::lua_call`).  The function sits
below its `nargs` arguments on the stack; the call consumes function and
arguments.  Calling the host `print` emits its string arguments; calling the
host `vim.schedule` records the reference argument for a later host-driven
invocation.  Calling a non-function, passing `vim.schedule` a non-reference,
or a raise inside the callee is an interpreter-level error: `lua_call` is
unprotected, so the error propagates past the native frame and the
statements after the call never run. -/
def lua_call (h : Host) (nargs nresults : Nat) (s : LuaState) : Outcome Unit :=
  match s.stack.get? nargs with
  | none => Outcome.luaRaise s
  | some f =>
    let args := (s.stack.take nargs).reverse
    let s' := { s with stack := s.stack.drop (nargs + 1) }
    match f with
    | LuaValue.printFn =>
      if h.printRaises then Outcome.luaRaise s'
      else Outcome.ok () (logEvent (Event.call f args nresults)
        { s' with messages := s'.messages ++ args.filterMap strOf })
    | LuaValue.scheduleFn =>
      if h.scheduleRaises then Outcome.luaRaise s'
      else
        match args with
        | [LuaValue.luaref r] =>
          Outcome.ok () (logEvent (Event.call f args nresults)
            { s' with scheduled := s'.scheduled ++ [r] })
        | _ => Outcome.luaRaise s'
    | _ => Outcome.luaRaise s'

/-- Modelled from the spec: the ABI primitive pop-n (`ffi::lua_pop`):
removes the top `n` values from the stack. -/
def lua_pop (n : Nat) (s : LuaState) : LuaState :=
  logEvent (Event.pop (s.stack.take n)) { s with stack := s.stack.drop n }

/-- Modelled from the spec: the ABI primitive release-by-index
(`ffi::luaL_unref` on `LUA_REGISTRYINDEX`): removes the handle's entry from
the persistent registry. -/
def luaL_unref (r : Nat) (s : LuaState) : LuaState :=
  logEvent (Event.unref r) { s with registry := s.registry.filter (fun p => p.1 != r) }

/-- Whether the text contains a null byte anywhere (the condition under
which `std::ffi::CString::new` fails). -/
def hasNull (t : String) : Bool :=
  t.toList.contains (Char.ofNat 0)

/-- Embedding of `print` from `toplevel.rs`: convert the text to a C string
(failing with the null-byte error before any interpreter interaction), then
under `with_state` push the global `print`, push the string, and call with
one argument and zero results. -/
def print (h : Host) (text : String) (s : LuaState) : Outcome Unit :=
  if hasNull text then Outcome.nativeErr NativeErr.invalidArgument s
  else lua_call h 1 0 (lua_pushstring text (lua_getglobal h "print" s))

/-- Embedding of `schedule` from `toplevel.rs`: under `with_state` push the
global `vim`, push its `schedule` field, register the closure obtaining a
registry handle, push the reference via `rawgeti`, call with one argument
and zero results, then pop `vim` and unref the handle.  A raise in
`lua_getfield` or `lua_call` propagates: the pop and the unref do not run. -/
def schedule (h : Host) (fid : Nat) (s : LuaState) : Outcome Unit :=
  match lua_getfield_top h "schedule" (lua_getglobal h "vim" s) with
  | Outcome.ok _ s2 =>
    match lua_call h 1 0 (lua_rawgeti (once_to_luaref fid s2).1 (once_to_luaref fid s2).2) with
    | Outcome.ok _ s5 =>
      Outcome.ok () (luaL_unref (once_to_luaref fid s2).1 (lua_pop 1 s5))
    | Outcome.nativeErr e s5 => Outcome.nativeErr e s5
    | Outcome.luaRaise s5 => Outcome.luaRaise s5
  | Outcome.nativeErr e s2 => Outcome.nativeErr e s2
  | Outcome.luaRaise s2 => Outcome.luaRaise s2

/-- Embedding of the `nprint!` macro from `toplevel.rs`: format the text and
call `print`, discarding its `Result` (`let _ = crate::print(...)`).  A
native error value is dropped; an interpreter-level raise still propagates,
as no native code can intercept it. -/
def nprint (h : Host) (text : String) (s : LuaState) : Outcome Unit :=
  match print h text s with
  | Outcome.ok _ s' => Outcome.ok () s'
  | Outcome.nativeErr _ s' => Outcome.ok () s'
  | Outcome.luaRaise s' => Outcome.luaRaise s'

/-- Modelled from the spec: the host event loop later invokes a scheduled
reference, outside any bridge operation.  This step is the only place a
closure moves from `scheduled` to `invoked`. -/
def hostDrainOne (s : LuaState) : LuaState :=
  match s.scheduled with
  | [] => s
  | r :: rest => { s with scheduled := rest, invoked := s.invoked ++ [r] }

/-- An empty interpreter state, as found before any bridge operation. -/
def initState : LuaState :=
  { stack := [], registry := [], nextRef := 0, messages := [],
    scheduled := [], invoked := [], events := [] }

/-- A host with `print` and `vim.schedule` present and well-behaved. -/
def goodHost : Host :=
  { hasPrint := true, printRaises := false, hasVim := true,
    hasSchedule := true, scheduleRaises := false }

/-- A host whose `vim` table exists but lacks the `schedule` field. -/
def noScheduleHost : Host :=
  { hasPrint := true, printRaises := false, hasVim := true,
    hasSchedule := false, scheduleRaises := false }

/-- A host whose `vim.schedule` raises an interpreter-level error. -/
def raisingScheduleHost : Host :=
  { hasPrint := true, printRaises := false, hasVim := true,
    hasSchedule := true, scheduleRaises := true }

/-- The interaction trace of a successful `print text` call. -/
def printEvents (t : String) : List Event :=
  [Event.getglobal "print" LuaValue.printFn,
   Event.pushstring t,
   Event.call LuaValue.printFn [LuaValue.str t] 0]

/-- The interaction trace of a successful `schedule` call registering
closure `fid` under handle `r`. -/
def scheduleEvents (r fid : Nat) : List Event :=
  [Event.getglobal "vim" LuaValue.vimTable,
   Event.getfield "schedule" LuaValue.scheduleFn,
   Event.registerClosure r fid,
   Event.rawgeti r (LuaValue.luaref r),
   Event.call LuaValue.scheduleFn [LuaValue.luaref r] 0,
   Event.pop [LuaValue.vimTable],
   Event.unref r]

/-- A registry all of whose handles are below the fresh counter is untouched
by filtering out the fresh handle. -/
theorem filter_fresh (R : List (Nat × Nat)) (n : Nat) (hf : ∀ p ∈ R, p.1 < n) :
    R.filter (fun p => p.1 != n) = R := by
  induction R with
  | nil => rfl
  | cons a t ih =>
    have ha : a.1 < n := hf a (by simp)
    have hb : (a.1 != n) = true := by
      simp only [bne_iff_ne, ne_eq]
      omega
    simp [List.filter_cons, hb, ih (fun p hp => hf p (by simp [hp]))]

/-- On a host where `vim.schedule` exists and does not raise, `schedule`
returns normally and its full effect on the state is: stack unchanged, the
fresh handle registered then removed from the registry, the fresh counter
advanced, the reference recorded as scheduled, and the seven interactions of
`scheduleEvents` logged. -/
theorem schedule_good (h : Host) (fid : Nat) (s : LuaState)
    (hv : h.hasVim = true) (hs : h.hasSchedule = true) (hr : h.scheduleRaises = false) :
    schedule h fid s = Outcome.ok ()
      { stack := s.stack
        registry := s.registry.filter (fun p => p.1 != s.nextRef)
        nextRef := s.nextRef + 1
        messages := s.messages
        scheduled := s.scheduled ++ [s.nextRef]
        invoked := s.invoked
        events := s.events ++ scheduleEvents s.nextRef fid } := by
  simp [schedule, lua_getglobal, globalValue, lua_getfield_top, once_to_luaref,
    lua_rawgeti, lua_call, lua_pop, luaL_unref, logEvent, push, hv, hs, hr,
    scheduleEvents, List.lookup]

/-- `schedule` returns normally only on a host where `vim` exists,
`vim.schedule` exists, and the deferral call does not raise. -/
theorem schedule_ok_host (h : Host) (fid : Nat) (s s' : LuaState)
    (hok : schedule h fid s = Outcome.ok () s') :
    h.hasVim = true ∧ h.hasSchedule = true ∧ h.scheduleRaises = false := by
  cases hv : h.hasVim <;> cases hs : h.hasSchedule <;> cases hr : h.scheduleRaises <;>
    simp_all [schedule, lua_getglobal, globalValue, lua_getfield_top, once_to_luaref,
      lua_rawgeti, lua_call, lua_pop, luaL_unref, logEvent, push, List.lookup]

/-- On a host where the global `print` exists and does not raise, printing
null-free text returns normally and its full effect is: one message emitted
and the three interactions of `printEvents` logged; every other state
component, the stack included, is unchanged. -/
theorem print_good (h : Host) (t : String) (s : LuaState)
    (hp : h.hasPrint = true) (hr : h.printRaises = false) (hn : hasNull t = false) :
    print h t s = Outcome.ok ()
      { s with messages := s.messages ++ [t], events := s.events ++ printEvents t } := by
  simp [print, lua_getglobal, globalValue, lua_pushstring, lua_call, logEvent, push,
    hp, hr, hn, printEvents, strOf]

/-- `print` returns normally only when the text is null-free and the host's
global `print` exists and does not raise. -/
theorem print_ok_host (h : Host) (t : String) (s s' : LuaState)
    (hok : print h t s = Outcome.ok () s') :
    h.hasPrint = true ∧ h.printRaises = false ∧ hasNull t = false := by
  cases hn : hasNull t <;> cases hp : h.hasPrint <;> cases hr : h.printRaises <;>
    simp_all [print, lua_getglobal, globalValue, lua_pushstring, lua_call, logEvent,
      push, strOf]

/-- The successful `schedule` trace releases the handle it registered
exactly once. -/
theorem scheduleEvents_one_unref (r fid : Nat) :
    (scheduleEvents r fid).count (Event.unref r) = 1 := by
  simp [scheduleEvents, List.count_cons, List.count_nil]

/-- C3: for every text containing an embedded null byte, `print` returns the
`InvalidArgument` (null-byte) error with the interpreter state exactly as it
found it — in particular no global lookup, push or call was logged and the
stack is untouched: zero interpreter interactions occur before the error. -/
theorem c3_null_byte_rejected_without_interaction
    (h : Host) (t : String) (s : LuaState) (hn : hasNull t = true) :
    print h t s = Outcome.nativeErr NativeErr.invalidArgument s := by
  simp [print, hn]

/-- C3 witness: printing a text with an interior null byte on the good host
returns the null-byte error with the state unchanged. -/
theorem c3_null_byte_witness :
    hasNull "a\x00b" = true ∧
    print goodHost "a\x00b" initState = Outcome.nativeErr NativeErr.invalidArgument initState :=
  ⟨by decide, c3_null_byte_rejected_without_interaction goodHost "a\x00b" initState (by decide)⟩

/-- C4: for every null-free text, on a host whose global `print` exists and
does not raise (the spec's precondition that the name resolves to a
callable), `print` succeeds and its interaction with the interpreter is
exactly one push of the global `print` function, one push of the text as a
string, and one call consuming the function and that single argument with
zero expected results; the stack and every other component besides the
emitted message and the event log are unchanged, so the stack delta is
net zero. -/
theorem c4_print_success_trace (h : Host) (t : String) (s : LuaState)
    (hp : h.hasPrint = true) (hr : h.printRaises = false) (hn : hasNull t = false) :
    print h t s = Outcome.ok ()
      { s with messages := s.messages ++ [t], events := s.events ++ printEvents t } ∧
    printEvents t =
      [Event.getglobal "print" LuaValue.printFn,
       Event.pushstring t,
       Event.call LuaValue.printFn [LuaValue.str t] 0] :=
  ⟨print_good h t s hp hr hn, rfl⟩

/-- C4 witness: the spec's concrete scenario, printing "Hello Mars!" on the
good host from the empty state. -/
theorem c4_print_success_witness :
    hasNull "Hello Mars!" = false ∧
    print goodHost "Hello Mars!" initState = Outcome.ok ()
      { initState with messages := ["Hello Mars!"], events := printEvents "Hello Mars!" } :=
  ⟨by decide,
   (c4_print_success_trace goodHost "Hello Mars!" initState rfl rfl (by decide)).1⟩

/-- C5: a closure handed to `schedule` is never invoked synchronously inside
`schedule`: on every host and every execution path (normal return or
interpreter-level raise) the set of invoked closures is unchanged, and
registering a closure via `once_to_luaref` likewise invokes nothing.
Invocation can only happen through the host's own later `hostDrainOne`
step, after `schedule` has returned. -/
theorem c5_schedule_never_invokes_closure (h : Host) (fid : Nat) (s : LuaState) :
    (schedule h fid s).state.invoked = s.invoked ∧
    ((once_to_luaref fid s).2).invoked = s.invoked := by
  constructor
  · cases hv : h.hasVim <;> cases hs : h.hasSchedule <;> cases hr : h.scheduleRaises <;>
      simp [schedule, lua_getglobal, globalValue, lua_getfield_top, once_to_luaref,
        lua_rawgeti, lua_call, lua_pop, luaL_unref, logEvent, push, List.lookup,
        Outcome.state, hv, hs, hr]
  · rfl

/-- C7: `schedule` cannot fail observably from the native caller's
perspective: its only normal result is the unit value and it never produces
a native error value, on any host; a failing deferral call is an
interpreter-level raise that propagates past the native frame rather than
being reported to the native caller. -/
theorem c7_schedule_no_native_error (h : Host) (fid : Nat) (s : LuaState) :
    (schedule h fid s).isNativeErr = false := by
  cases hv : h.hasVim <;> cases hs : h.hasSchedule <;> cases hr : h.scheduleRaises <;>
    simp [schedule, lua_getglobal, globalValue, lua_getfield_top, once_to_luaref,
      lua_rawgeti, lua_call, lua_pop, luaL_unref, logEvent, push, List.lookup,
      Outcome.isNativeErr, hv, hs, hr]

/-- C9: the `nprint!` macro discards the `Result` of the underlying `print`
function: it never surfaces a native error value to its caller, and on a
text whose formatted output contains a null byte the `InvalidArgument`
failure is silently dropped — the macro completes normally with the
interpreter state untouched. -/
theorem c9_nprint_discards_error (h : Host) (t : String) (s : LuaState) :
    (nprint h t s).isNativeErr = false ∧
    (hasNull t = true → nprint h t s = Outcome.ok () s) := by
  constructor
  · cases hres : print h t s <;> simp [nprint, hres, Outcome.isNativeErr]
  · intro hn
    simp [nprint, print, hn]

/-- C9 witness: formatting a text with a null byte through the macro on the
good host surfaces no error and leaves the state unchanged. -/
theorem c9_nprint_witness :
    (nprint goodHost "a\x00b" initState).isNativeErr = false ∧
    nprint goodHost "a\x00b" initState = Outcome.ok () initState :=
  ⟨(c9_nprint_discards_error goodHost "a\x00b" initState).1,
   (c9_nprint_discards_error goodHost "a\x00b" initState).2 (by decide)⟩

/-- C10: `print` rejects a null byte at any position of the text — whenever
the text contains the byte 0x00 anywhere, the C-string conversion fails and
`print` returns the null-byte error with the state untouched; conversely,
for every text with no 0x00 byte the conversion succeeds and the
interpreter call path is reached: on every host the first interpreter
interaction logged is the lookup of the global `print`. -/
theorem c10_null_anywhere_rejected_else_reached (h : Host) (t : String) (s : LuaState) :
    (hasNull t = true → print h t s = Outcome.nativeErr NativeErr.invalidArgument s) ∧
    (hasNull t = false → ∃ rest,
      (print h t s).state.events =
        s.events ++ Event.getglobal "print" (globalValue h "print") :: rest) := by
  constructor
  · intro hn
    simp [print, hn]
  · intro hn
    cases hp : h.hasPrint <;> cases hr : h.printRaises <;>
      simp [print, lua_getglobal, globalValue, lua_pushstring, lua_call, logEvent,
        push, strOf, Outcome.state, hn, hp, hr]

/-- C10 witness: a text whose final byte is the null byte is rejected with
the state unchanged, and a null-free text reaches the interpreter call
path, its first logged interaction being the lookup of the global
`print`. -/
theorem c10_null_anywhere_witness :
    hasNull "ab\x00" = true ∧
    print goodHost "ab\x00" initState = Outcome.nativeErr NativeErr.invalidArgument initState ∧
    hasNull "ab" = false ∧
    (∃ rest,
      (print goodHost "ab" initState).state.events =
        initState.events ++ Event.getglobal "print" (globalValue goodHost "print") :: rest) :=
  ⟨by decide,
   (c10_null_anywhere_rejected_else_reached goodHost "ab\x00" initState).1 (by decide),
   by decide,
   (c10_null_anywhere_rejected_else_reached goodHost "ab" initState).2 (by decide)⟩

/-- C8: two calls of `print` with the same valid (null-free) text are two
independent operations: each succeeds, each appends its own message
emission and its own `printEvents` trace, each leaves the stack exactly as
it found it, and no mutable bridge state persists from the first call to
the second — the registry, fresh-handle counter, scheduled and invoked
lists after both calls equal those before the first, and the second call's
effect has the same shape as the first's. -/
theorem c8_print_twice_independent (h : Host) (t : String) (s : LuaState)
    (hp : h.hasPrint = true) (hr : h.printRaises = false) (hn : hasNull t = false) :
    ∃ s₁ s₂,
      print h t s = Outcome.ok () s₁ ∧
      print h t s₁ = Outcome.ok () s₂ ∧
      s₁.stack = s.stack ∧ s₂.stack = s₁.stack ∧
      s₁.messages = s.messages ++ [t] ∧ s₂.messages = s₁.messages ++ [t] ∧
      s₁.events = s.events ++ printEvents t ∧ s₂.events = s₁.events ++ printEvents t ∧
      s₂.registry = s.registry ∧ s₂.nextRef = s.nextRef ∧
      s₂.scheduled = s.scheduled ∧ s₂.invoked = s.invoked :=
  ⟨_, _, print_good h t s hp hr hn, print_good h t _ hp hr hn,
   rfl, rfl, rfl, rfl, rfl, by simp, rfl, rfl, rfl, rfl⟩

/-- C8 witness: printing "hi" twice on the good host from the empty state
yields two independent emissions and two net-zero stack deltas. -/
theorem c8_print_twice_witness :
    ∃ s₁ s₂,
      print goodHost "hi" initState = Outcome.ok () s₁ ∧
      print goodHost "hi" s₁ = Outcome.ok () s₂ ∧
      s₁.stack = initState.stack ∧ s₂.stack = s₁.stack ∧
      s₁.messages = initState.messages ++ ["hi"] ∧ s₂.messages = s₁.messages ++ ["hi"] ∧
      s₁.events = initState.events ++ printEvents "hi" ∧
      s₂.events = s₁.events ++ printEvents "hi" ∧
      s₂.registry = initState.registry ∧ s₂.nextRef = initState.nextRef ∧
      s₂.scheduled = initState.scheduled ∧ s₂.invoked = initState.invoked :=
  c8_print_twice_independent goodHost "hi" initState rfl rfl (by decide)

/-- C6: on a host with a working `vim.schedule`, the stack operations of
`schedule` occur in exactly this order: the `vim` receiver table is pushed
first, then its `schedule` field, then (after registering the closure) the
registry reference to the closure; the call consumes the `schedule`
function together with the reference argument, and afterwards the `vim`
receiver pushed first is the value popped back off the stack, before the
handle is unreffed — as the expanded event trace records, with the stack
returned exactly to its initial contents. -/
theorem c6_schedule_stack_operation_order (h : Host) (fid : Nat) (s : LuaState)
    (hv : h.hasVim = true) (hs : h.hasSchedule = true) (hr : h.scheduleRaises = false) :
    schedule h fid s = Outcome.ok ()
      { stack := s.stack
        registry := s.registry.filter (fun p => p.1 != s.nextRef)
        nextRef := s.nextRef + 1
        messages := s.messages
        scheduled := s.scheduled ++ [s.nextRef]
        invoked := s.invoked
        events := s.events ++ scheduleEvents s.nextRef fid } ∧
    scheduleEvents s.nextRef fid =
      [Event.getglobal "vim" LuaValue.vimTable,
       Event.getfield "schedule" LuaValue.scheduleFn,
       Event.registerClosure s.nextRef fid,
       Event.rawgeti s.nextRef (LuaValue.luaref s.nextRef),
       Event.call LuaValue.scheduleFn [LuaValue.luaref s.nextRef] 0,
       Event.pop [LuaValue.vimTable],
       Event.unref s.nextRef] :=
  ⟨schedule_good h fid s hv hs hr, rfl⟩

/-- C6 witness: scheduling closure 3 on the good host from the empty state
produces exactly the ordered trace and restores the empty stack. -/
theorem c6_schedule_order_witness :
    schedule goodHost 3 initState = Outcome.ok ()
      { stack := [], registry := [], nextRef := 1, messages := [],
        scheduled := [0], invoked := [], events := scheduleEvents 0 3 } :=
  (c6_schedule_stack_operation_order goodHost 3 initState rfl rfl rfl).1

/-- C1 counterexample: the claim that the registry handle is released on
every execution path fails on the path where `vim` exists but its
`schedule` field is missing: the deferral call raises an interpreter-level
error which propagates past the release statement, so after `schedule` the
registry still holds the handle registered for the closure and no release
was ever logged. -/
theorem c1_unreleased_handle_counterexample :
    (schedule noScheduleHost 7 initState).isLuaRaise = true ∧
    (schedule noScheduleHost 7 initState).state.registry = [(0, 7)] ∧
    (schedule noScheduleHost 7 initState).state.events.count (Event.unref 0) = 0 := by
  refine ⟨rfl, rfl, rfl⟩

/-- C1 (amended): on every execution path where the deferral call returns
control to the bridge — that is, whenever `schedule` completes normally —
the registry handle obtained when the closure was registered is released
exactly once after the call: the registry is returned to its prior
contents (given that existing handles are below the fresh counter) and the
logged trace contains exactly one release of that handle.  On a path where
the field lookup or the deferral call raises an interpreter-level error,
the release statement is skipped by the propagating error, so the handle
is not released there. -/
theorem c1_handle_released_once_on_normal_return
    (h : Host) (fid : Nat) (s s' : LuaState)
    (hfresh : ∀ p ∈ s.registry, p.1 < s.nextRef)
    (hok : schedule h fid s = Outcome.ok () s') :
    s'.registry = s.registry ∧
    s'.events = s.events ++ scheduleEvents s.nextRef fid ∧
    (scheduleEvents s.nextRef fid).count (Event.unref s.nextRef) = 1 := by
  obtain ⟨hv, hs2, hr⟩ := schedule_ok_host h fid s s' hok
  rw [schedule_good h fid s hv hs2 hr] at hok
  injection hok with hu hstate
  subst hstate
  exact ⟨filter_fresh s.registry s.nextRef hfresh, rfl,
    scheduleEvents_one_unref s.nextRef fid⟩

/-- C1 witness: scheduling closure 7 on the good host from the empty state
returns normally, with the handle gone from the registry and exactly one
release of it in the trace of the call. -/
theorem c1_handle_released_once_witness :
    ∃ s', schedule goodHost 7 initState = Outcome.ok () s' ∧
      s'.registry = initState.registry ∧
      s'.events = initState.events ++ scheduleEvents initState.nextRef 7 ∧
      (scheduleEvents initState.nextRef 7).count (Event.unref initState.nextRef) = 1 := by
  refine ⟨(schedule goodHost 7 initState).state, rfl, ?_⟩
  exact c1_handle_released_once_on_normal_return goodHost 7 initState
    (schedule goodHost 7 initState).state (by intro p hp; cases hp) rfl

/-- C2 counterexample: the claim that every bridge operation leaves the
stack depth unchanged on every exit path fails on the path where the
deferral call raises an interpreter-level error: the propagating error
skips the pop of the `vim` receiver, so the raise exit of `schedule`
leaves one value the bridge pushed (and the call did not consume) on a
stack that was empty before. -/
theorem c2_stack_leak_counterexample :
    (schedule raisingScheduleHost 5 initState).isLuaRaise = true ∧
    (schedule raisingScheduleHost 5 initState).state.stack = [LuaValue.vimTable] ∧
    initState.stack = [] := by
  refine ⟨rfl, rfl, rfl⟩

/-- C2 (amended): on every exit path that returns control to the native
caller, both bridge operations leave the interpreter's stack depth exactly
as they found it, net of what the call consumed: `print` restores the
stack both when it succeeds and when it returns the null-byte error, and
`schedule` restores the stack whenever it returns normally.  On an
interpreter-raise exit, control never returns to the bridge, and values it
pushed that the call did not consume can remain behind. -/
theorem c2_stack_balanced_on_native_return (h : Host) (s : LuaState) :
    (∀ t s', print h t s = Outcome.ok () s' → s'.stack = s.stack) ∧
    (∀ t e s', print h t s = Outcome.nativeErr e s' → s'.stack = s.stack) ∧
    (∀ fid s', schedule h fid s = Outcome.ok () s' → s'.stack = s.stack) := by
  refine ⟨?_, ?_, ?_⟩
  · intro t s' hok
    obtain ⟨hp, hr, hn⟩ := print_ok_host h t s s' hok
    rw [print_good h t s hp hr hn] at hok
    injection hok with hu hstate
    subst hstate
    rfl
  · intro t e s' herr
    cases hn : hasNull t <;> cases hp : h.hasPrint <;> cases hr : h.printRaises <;>
      simp_all [print, lua_getglobal, globalValue, lua_pushstring, lua_call,
        logEvent, push, strOf]
  · intro fid s' hok
    obtain ⟨hv, hs2, hr⟩ := schedule_ok_host h fid s s' hok
    rw [schedule_good h fid s hv hs2 hr] at hok
    injection hok with hu hstate
    subst hstate
    rfl

/-- C2 witness: on the good host from the empty state, a successful print,
a null-byte-rejected print, and a successful schedule each return a stack
identical to the one they started from. -/
theorem c2_stack_balanced_witness :
    (∃ s', print goodHost "hi" initState = Outcome.ok () s' ∧ s'.stack = initState.stack) ∧
    (∃ s', print goodHost "a\x00b" initState = Outcome.nativeErr NativeErr.invalidArgument s' ∧
      s'.stack = initState.stack) ∧
    (∃ s', schedule goodHost 4 initState = Outcome.ok () s' ∧ s'.stack = initState.stack) := by
  refine ⟨⟨(print goodHost "hi" initState).state, rfl, ?_⟩,
          ⟨(print goodHost "a\x00b" initState).state, rfl, ?_⟩,
          ⟨(schedule goodHost 4 initState).state, rfl, ?_⟩⟩
  · exact (c2_stack_balanced_on_native_return goodHost initState).1 "hi"
      (print goodHost "hi" initState).state rfl
  · exact (c2_stack_balanced_on_native_return goodHost initState).2.1 "a\x00b"
      NativeErr.invalidArgument (print goodHost "a\x00b" initState).state rfl
  · exact (c2_stack_balanced_on_native_return goodHost initState).2.2 4
      (schedule goodHost 4 initState).state rfl
